import Mathlib

/-!
Shallow embedding of the covidreport time-series join-and-aggregate engine
(src/main.rs) and proofs about it.

Modelling conventions:
* `chrono::NaiveDate` is modelled as a `Nat` counting days from a fixed epoch
  chosen to be a Monday, so `num_days_from_monday` of a date `d` is `d % 7`.
* `u32` values are modelled as `Nat` (the analysed quantities are small daily
  counts, far from the 2^32 wrap); `i32` results of subtraction as `Int`.
* `f32`/`f64` arithmetic on these integer counts is modelled exactly over `ℚ`.
* Code that panics in Rust (usize underflow, out-of-range slice indexing,
  `Option::unwrap` of a missing value, an IEEE 0.0/0.0 contribution) is
  modelled as an `Option`-valued function returning `none` at exactly the
  inputs where the Rust code would panic or produce an undefined value.
-/

namespace Covidreport

/-- One row of the cases table (struct `CasesRecord` in main.rs): jurisdiction,
date, and the optional new-case count. -/
structure CasesRecord where
  county : String
  date : Nat
  new_cases : Option Nat
  deriving DecidableEq

/-- One row of the capacity table (struct `HospitalRecord` in main.rs).  The
`new_cases` field is skipped by the CSV reader (serde(skip)) and is therefore
`none` on every freshly read row; the join fills it in. -/
structure HospitalRecord where
  county : String
  date : Nat
  adult_icu_beds_available : Option Nat
  adult_icu_beds_total : Option Nat
  med_surg_available : Option Nat
  med_surg_total : Option Nat
  covid_hospitalized : Option Nat
  covid_ventilator : Option Nat
  covid_icu : Option Nat
  new_cases : Option Nat
  deriving DecidableEq

/-- A record with every optional field absent; used only as the irrelevant
default of `List.getD` at indices that are proved in range. -/
def blankRecord : HospitalRecord :=
  ⟨"", 0, none, none, none, none, none, none, none, none⟩

/-- Convenience constructor for test data: a record carrying only a
jurisdiction, a date and a new-case count. -/
def mkRec (county : String) (date : Nat) (nc : Option Nat) : HospitalRecord :=
  ⟨county, date, none, none, none, none, none, none, none, nc⟩

/-- The gap filler, fn `cleanup` in main.rs: for each index `i` of the input,
push the value if present; push `0` when missing at the first or last
position; otherwise push `(v[i-1].unwrap_or(0) + v[i+1].unwrap_or(0)) / 2`,
reading the raw (possibly missing) neighbours of the ORIGINAL vector. -/
def cleanup (v : List (Option Nat)) : List Nat :=
  (List.range v.length).map (fun i =>
    match v.getD i none with
    | some x => x
    | none =>
      if i = 0 ∨ i = v.length - 1 then 0
      else ((v.getD (i - 1) none).getD 0 + (v.getD (i + 1) none).getD 0) / 2)

/-- The case-table lookup built in fn `get_all_records` (main.rs line 352):
a hash map keyed by jurisdiction and date (the source concatenates the
jurisdiction with the fixed-width ISO rendering of the date, which is
injective in the pair), inserted in input order so a later duplicate key
overwrites an earlier one.  The map is modelled as its lookup function. -/
def casehash (cs : List CasesRecord) : String × Nat → Option CasesRecord :=
  cs.foldl (fun m c => fun k => if k = (c.county, c.date) then some c else m k)
    (fun _ => none)

/-- The snapshot join, fn `get_all_records` (main.rs lines 350-365): for each
capacity row, look up its (jurisdiction, date) key in the case table; on a hit
copy that case row's new-case count into the row, otherwise leave the row
unchanged (its `new_cases` is `none` as read from CSV). -/
def get_all_records (case_records : List CasesRecord)
    (hosp_records : List HospitalRecord) : List HospitalRecord :=
  hosp_records.map (fun r =>
    match casehash case_records (r.county, r.date) with
    | some caserec => { r with new_cases := caserec.new_cases }
    | none => r)

/-- The trailing 7-day average at offset `step`, as computed by the slice
`recs[last - 7 - step..last - step]` with `last = recs.len() - 1` in fn
`reportcovid` (main.rs lines 495-500) and fn `printstats` (lines 285-294):
the sum of the windows `new_cases.unwrap_or(0)` values divided by `7.0`.
Returns `none` exactly when the Rust code panics: on an empty series
(`recs.len() - 1` underflows) or when `last < 7 + step` (the slice start
underflows / is out of range), i.e. when `recs.len() < 8 + step`. -/
def cases_7_day_avg (recs : List HospitalRecord) (step : Nat) : Option ℚ :=
  if recs.length < 8 + step then none
  else
    let last := recs.length - 1
    some ((((recs.drop (last - 7 - step)).take 7).map
      (fun r => (r.new_cases.getD 0 : ℚ))).sum / 7)

/-- The step-comparison loop of fn `reportcovid` (main.rs lines 491-507):
the three 7-day averages at steps 0, 7 and 14, computed in that order;
`none` as soon as one of them panics. -/
def reportcovid_steps (recs : List HospitalRecord) : Option (ℚ × ℚ × ℚ) := do
  let step0 ← cases_7_day_avg recs 0
  let step7 ← cases_7_day_avg recs 7
  let step14 ← cases_7_day_avg recs 14
  pure (step0, step7, step14)

/-- The "highest recent 7 day average" of fn `printstats` (main.rs lines
285-294): the loop `[0,1].iter().map(|step| ...).max()`, where each iteration
computes the trailing 7-day average at that step and converts it to `u32`
(truncation toward zero of a non-negative value, i.e. the floor).  `none`
exactly when the Rust code panics, i.e. when `recs.len() < 9` (the step-1
slice needs 9 elements; shorter input already panics at step 0 or 1). -/
def highest_recent_avg (recs : List HospitalRecord) : Option Nat :=
  if recs.length < 9 then none
  else
    let last := recs.length - 1
    let avg : Nat → ℚ := fun step =>
      (((recs.drop (last - 7 - step)).take 7).map
        (fun r => (r.new_cases.getD 0 : ℚ))).sum / 7
    some (max (⌊avg 0⌋.toNat) (⌊avg 1⌋.toNat))

/-- Written from the words of the specification, for comparison with
`highest_recent_avg`: the maximum of the step-0 and step-7 trailing 7-day
averages (each truncated to an integer the way `printstats` truncates). -/
def highest_recent_avg_spec (recs : List HospitalRecord) : Option Nat := do
  let a0 ← cases_7_day_avg recs 0
  let a7 ← cases_7_day_avg recs 7
  pure (max (⌊a0⌋.toNat) (⌊a7⌋.toNat))

/-- The transmission-risk band match of fn `printstats` (main.rs lines
298-304): left-closed/right-open bands on the weekly-per-100k rate. -/
def level (x : ℚ) : String :=
  if 0 ≤ x ∧ x < 10 then "Low"
  else if 10 ≤ x ∧ x < 50 then "Moderate"
  else if 50 ≤ x ∧ x < 100 then "Substantial"
  else if 100 ≤ x then "High"
  else "ERROR"

/-- The `if let Some(pop) = population` block of fn `printstats` (main.rs
lines 296-306): no population, no classification; otherwise classify
`highest_cases * 7 / (pop / 100000)`. -/
def transmission_risk (highest_cases : Nat) (population : Option Nat) :
    Option String :=
  population.map (fun pop =>
    level (((highest_cases * 7 : Nat) : ℚ) / ((pop : ℚ) / 100000)))

/-- The day-over-day delta pattern of fn `printstats` (main.rs lines 264-279),
shared by the hospitalization and the ICU fields: latest value minus the
prior value, where the prior value is `vals[last - 1]` if present and
otherwise `vals[last - 2].unwrap()` (the `unwrap_or_else` closure; a single
fallback step, not a search).  `none` exactly where the Rust code panics:
fewer than two entries, a missing latest value, or a missing prior value
with fewer than three entries or a missing value two days back. -/
def day_delta (vals : List (Option Nat)) : Option Int :=
  if vals.length < 2 then none
  else
    let last := vals.length - 1
    match vals.getD last none with
    | none => none
    | some newest =>
      match vals.getD (last - 1) none with
      | some prev => some ((newest : Int) - (prev : Int))
      | none =>
        if vals.length < 3 then none
        else
          match vals.getD (last - 2) none with
          | none => none
          | some prev => some ((newest : Int) - (prev : Int))

/-- The hospitalization delta of fn `printstats` (main.rs lines 266-270). -/
def hosp_delta (recs : List HospitalRecord) : Option Int :=
  day_delta (recs.map (fun r => r.covid_hospitalized))

/-- The ICU delta of fn `printstats` (main.rs lines 273-277). -/
def icu_delta (recs : List HospitalRecord) : Option Int :=
  day_delta (recs.map (fun r => r.covid_icu))

/-- The daily new-case display values of fn `plot_jurisdiction` (main.rs
lines 194-198): all but the provisional last record, with an absent count
read as 0. -/
def casevec (recs : List HospitalRecord) : List Nat :=
  (recs.take (recs.length - 1)).map (fun r => r.new_cases.getD 0)

/-- The daily-cases display series of fn `plot_jurisdiction` (main.rs lines
221-223): (date, new-case count or 0) pairs over all but the last record. -/
def daily_series (recs : List HospitalRecord) : List (Nat × Nat) :=
  (recs.take (recs.length - 1)).map (fun r => (r.date, r.new_cases.getD 0))

/-- Sliding windows of width 7, Rust `slice::windows(7)`: one window per
start index `0 .. len - 7`, none when the slice is shorter than 7. -/
def windows7 (l : List Nat) : List (List Nat) :=
  (List.range (l.length + 1 - 7)).map (fun i => (l.drop i).take 7)

/-- Round half away from zero (`f64::round`), restricted to the non-negative
values produced here, where it agrees with round half up. -/
def roundHalfUp (q : ℚ) : Nat := (⌊q + 1 / 2⌋).toNat

/-- The smoothed rolling-average trace of fn `plot_jurisdiction` (main.rs
lines 199-202): over each width-7 window of `casevec`, the rounded mean
`sum / w.len()`. -/
def cases7day (recs : List HospitalRecord) : List Nat :=
  (windows7 (casevec recs)).map (fun w =>
    roundHalfUp ((w.map (fun x => (x : ℚ))).sum / (w.length : ℚ)))

/-- Rust `slice::chunks(7)` with a fuel argument: `chunksAux l.length l`
splits `l` into consecutive 7-element chunks (last one possibly shorter). -/
def chunksAux {α : Type} : Nat → List α → List (List α)
  | 0, _ => []
  | _ + 1, [] => []
  | fuel + 1, x :: xs => (x :: xs).take 7 :: chunksAux fuel ((x :: xs).drop 7)

/-- Rust `slice::chunks(7)`. -/
def chunks7 {α : Type} (l : List α) : List (List α) := chunksAux l.length l

/-- The weekday decomposer of fn `dayreport` (main.rs lines 564-581): take
the 112 observations `all_records[nr - 113 .. nr - 1]` (16 complete weeks,
excluding the provisional last day), chunk them by 7, and for each
observation of each chunk add `count / (chunk_total * 16)` to the
accumulator slot for its weekday.  `none` exactly where the Rust code is
undefined or panics: fewer than 113 records (slice underflow), or a chunk
whose total is zero, where the source divides by zero (each contribution is
the IEEE float `0.0 / 0.0`). -/
def dayreport_dayper (recs : List HospitalRecord) : Option (List ℚ) :=
  if recs.length < 113 then none
  else
    let window := (recs.drop (recs.length - 113)).take 112
    let chunks := chunks7 window
    if chunks.any (fun c => (c.map (fun r => r.new_cases.getD 0)).sum = 0)
    then none
    else some (chunks.foldl (fun dayper c =>
      let tot : ℚ := ((c.map (fun r => r.new_cases.getD 0)).sum : ℚ)
      c.foldl (fun dp w =>
        dp.set (w.date % 7)
          (dp.getD (w.date % 7) 0 + (w.new_cases.getD 0 : ℚ) / (tot * 16))) dayper)
      (List.replicate 7 0))

/-! ## Supporting lemmas -/

theorem cleanup_getD (v : List (Option Nat)) (i : Nat) (h : i < v.length) :
    (cleanup v).getD i 0 =
      match v.getD i none with
      | some x => x
      | none =>
        if i = 0 ∨ i = v.length - 1 then 0
        else ((v.getD (i - 1) none).getD 0 + (v.getD (i + 1) none).getD 0) / 2 := by
  simp [cleanup, List.getD_eq_getElem?_getD, List.getElem?_map,
    List.getElem?_range h]

/-! ## C3 -/

/-- C3: the claim that `cleanup [None, 4, None, None, 8, None]` returns
`[0, 4, 2, 6, 8, 0]` is false: position 3 averages its raw neighbours
(a missing left neighbour contributing 0 and the value 8), giving 4. -/
theorem C3_counterexample :
    cleanup [none, some 4, none, none, some 8, none] ≠ [0, 4, 2, 6, 8, 0] := by
  decide

/-- C3 (amended): the gap filler applied to `[None, 4, None, None, 8, None]`
returns exactly `[0, 4, 2, 4, 8, 0]`. -/
theorem C3_cleanup_example :
    cleanup [none, some 4, none, none, some 8, none] = [0, 4, 2, 4, 8, 0] := by
  decide

/-! ## C4 -/

/-- C4: the gap filler preserves length; keeps present values; sends a
missing first or last value to 0; fills a missing interior value at `i` with
the floor of (raw left neighbour or 0 + raw right neighbour or 0) / 2 from
the original, possibly-missing neighbours; and returns an all-present input
unchanged. -/
theorem C4_cleanup_spec (v : List (Option Nat)) :
    ((cleanup v).length = v.length) ∧
    (∀ i x, i < v.length → v.getD i none = some x → (cleanup v).getD i 0 = x) ∧
    (∀ i, i < v.length → v.getD i none = none → (i = 0 ∨ i = v.length - 1) →
      (cleanup v).getD i 0 = 0) ∧
    (∀ i, 0 < i → i + 1 < v.length → v.getD i none = none →
      (cleanup v).getD i 0 =
        ((v.getD (i - 1) none).getD 0 + (v.getD (i + 1) none).getD 0) / 2) ∧
    (∀ w : List Nat, cleanup (w.map some) = w) := by
  refine ⟨by simp [cleanup], ?_, ?_, ?_, ?_⟩
  · intro i x hi hx
    rw [cleanup_getD v i hi, hx]
  · intro i hi hx hedge
    rw [cleanup_getD v i hi, hx]
    simp [hedge]
  · intro i hpos hi hx
    rw [cleanup_getD v i (by omega), hx]
    have h0 : ¬(i = 0 ∨ i = v.length - 1) := by omega
    simp [h0]
  · intro w
    apply List.ext_getElem (by simp [cleanup])
    intro i h1 h2
    have hw : i < w.length := h2
    simp [cleanup, List.getElem_map, List.getElem_range,
      List.getD_eq_getElem?_getD, List.getElem?_map,
      List.getElem?_eq_getElem hw]

/-- C4 witness: a concrete interior fill, `cleanup [some 5, none, some 3]`
has value `(5 + 3) / 2 = 4` at position 1, obtained from the theorem. -/
theorem C4_witness :
    (0 < 1 ∧ 1 + 1 < ([some 5, none, some 3] : List (Option Nat)).length) ∧
    (cleanup [some 5, none, some 3]).getD 1 0 =
      ((([some 5, none, some 3] : List (Option Nat)).getD 0 none).getD 0 +
        (([some 5, none, some 3] : List (Option Nat)).getD 2 none).getD 0) / 2 :=
  ⟨⟨by decide, by decide⟩,
    (C4_cleanup_spec [some 5, none, some 3]).2.2.2.1 1 (by decide) (by decide)
      (by decide)⟩

/-! ## C6 -/

/-- C6: the transmission-risk classifier maps the weekly-per-100k rate by
disjoint left-closed/right-open bands — [0,10) to Low, [10,50) to Moderate,
[50,100) to Substantial, [100,∞) to High — with 9.99 Low, 10 Moderate,
49.999 Moderate, 100 High; and an unknown population yields no
classification. -/
theorem C6_level_bands (x : ℚ) :
    (0 ≤ x → x < 10 → level x = "Low") ∧
    (10 ≤ x → x < 50 → level x = "Moderate") ∧
    (50 ≤ x → x < 100 → level x = "Substantial") ∧
    (100 ≤ x → level x = "High") ∧
    (level (999 / 100) = "Low" ∧ level 10 = "Moderate" ∧
      level (49999 / 1000) = "Moderate" ∧ level 100 = "High") ∧
    (∀ n : Nat, transmission_risk n none = none) := by
  refine ⟨?_, ?_, ?_, ?_, ⟨?_, ?_, ?_, ?_⟩, ?_⟩
  · intro h1 h2
    unfold level
    rw [if_pos ⟨h1, h2⟩]
  · intro h1 h2
    unfold level
    rw [if_neg (by rintro ⟨-, h⟩; linarith), if_pos ⟨h1, h2⟩]
  · intro h1 h2
    unfold level
    rw [if_neg (by rintro ⟨-, h⟩; linarith),
      if_neg (by rintro ⟨-, h⟩; linarith), if_pos ⟨h1, h2⟩]
  · intro h1
    unfold level
    rw [if_neg (by rintro ⟨-, h⟩; linarith),
      if_neg (by rintro ⟨-, h⟩; linarith),
      if_neg (by rintro ⟨-, h⟩; linarith), if_pos h1]
  · norm_num [level]
  · norm_num [level]
  · norm_num [level]
  · norm_num [level]
  · intro n
    simp [transmission_risk]

/-- C6 witness: the rate 5 lies in [0, 10) and is classified Low. -/
theorem C6_witness : (0 ≤ (5 : ℚ) ∧ (5 : ℚ) < 10) ∧ level 5 = "Low" :=
  ⟨⟨by norm_num, by norm_num⟩,
    (C6_level_bands 5).1 (by norm_num) (by norm_num)⟩

/-! ## C8 -/

/-- The seven-day sequence 1..7 named in the specification, as a series of
observations. -/
def sampleWeek : List HospitalRecord :=
  [mkRec "PA" 0 (some 1), mkRec "PA" 1 (some 2), mkRec "PA" 2 (some 3),
   mkRec "PA" 3 (some 4), mkRec "PA" 4 (some 5), mkRec "PA" 5 (some 6),
   mkRec "PA" 6 (some 7)]

theorem sum_map_take_drop {α : Type} (f : α → ℚ) (d : α) :
    ∀ (n a : Nat) (l : List α), a + n ≤ l.length →
      (((l.drop a).take n).map f).sum =
        ((List.range n).map (fun i => f (l.getD (a + i) d))).sum := by
  intro n
  induction n with
  | zero => simp
  | succ n ih =>
    intro a l h
    have ha : a < l.length := by omega
    rw [List.drop_eq_getElem_cons ha, List.take_succ_cons, List.map_cons,
      List.sum_cons, List.range_succ_eq_map, List.map_cons, List.sum_cons,
      ih (a + 1) l (by omega), List.map_map]
    have harg : l.getD (a + 0) d = l[a] := by
      simp [List.getD_eq_getElem?_getD, List.getElem?_eq_getElem ha]
    rw [harg]
    congr 1
    apply congrArg List.sum
    apply List.map_congr_left
    intro i _
    have hidx : a + 1 + i = a + Nat.succ i := by omega
    simp [Function.comp, hidx]

theorem avg_of_replicate (n step v : Nat) (h : 8 + step ≤ n) :
    cases_7_day_avg (List.replicate n (mkRec "PA" 0 (some v))) step =
      some v := by
  unfold cases_7_day_avg
  rw [if_neg (by simp; omega)]
  have hmin : min 7 (n - (n - 1 - 7 - step)) = 7 := by omega
  simp only [List.length_replicate, List.drop_replicate, List.take_replicate,
    hmin, List.map_replicate, List.sum_replicate, mkRec, Option.getD_some,
    nsmul_eq_mul]
  norm_num

/-- C8 (amended): the trailing 7-day average at offset `step` is the mean
(sum over 7.0) of the 7 values at positions `[last-7-step, last-step)`; the
sequence 1..7 followed by one provisional (excluded) observation has step-0
average exactly 4; a 14-element constant sequence of value `v` has step-0
average `v`; and a 15-element constant sequence has both step-0 and step-7
averages `v`.  (As stated, the claim fails on the code: a bare 7-element
sequence has no step-0 window and a 14-element sequence has no step-7
window — the slice start `last - 7 - step` underflows; see the
counterexample.) -/
theorem C8_window_avg (recs : List HospitalRecord) (step v : Nat)
    (h : 8 + step ≤ recs.length) :
    (cases_7_day_avg recs step = some
      (((List.range 7).map (fun i =>
        ((recs.getD (recs.length - 8 - step + i) blankRecord).new_cases.getD 0
          : ℚ))).sum / 7)) ∧
    (cases_7_day_avg (sampleWeek ++ [mkRec "PA" 7 (some 100)]) 0 = some 4) ∧
    (cases_7_day_avg (List.replicate 14 (mkRec "PA" 0 (some v))) 0 = some v) ∧
    (cases_7_day_avg (List.replicate 15 (mkRec "PA" 0 (some v))) 0 = some v ∧
      cases_7_day_avg (List.replicate 15 (mkRec "PA" 0 (some v))) 7 = some v)
    := by
  refine ⟨?_, ?_, ?_, ?_, ?_⟩
  · have heq : recs.length - 1 - 7 - step = recs.length - 8 - step := by omega
    have hdef : cases_7_day_avg recs step =
        some ((((recs.drop (recs.length - 1 - 7 - step)).take 7).map
          (fun r => (r.new_cases.getD 0 : ℚ))).sum / 7) := by
      unfold cases_7_day_avg
      rw [if_neg (by omega)]
    rw [hdef, heq, sum_map_take_drop _ blankRecord 7 (recs.length - 8 - step)
      recs (by omega)]
  · simp only [cases_7_day_avg, sampleWeek, mkRec]
    norm_num
  · exact avg_of_replicate 14 0 v (by omega)
  · exact avg_of_replicate 15 0 v (by omega)
  · exact avg_of_replicate 15 7 v (by omega)

/-- C8 counterexample: as stated the claim fails on the code — for the bare
sequence 1..7 the step-0 slice start underflows (the code panics, modelled
`none`, rather than producing 4.0), and a 14-element constant sequence has
no step-7 window at all (rather than a step-7 average equal to the constant
3). -/
theorem C8_counterexample :
    cases_7_day_avg sampleWeek 0 = none ∧
    cases_7_day_avg sampleWeek 0 ≠ some 4 ∧
    cases_7_day_avg (List.replicate 14 (mkRec "PA" 0 (some 3))) 7 = none ∧
    cases_7_day_avg (List.replicate 14 (mkRec "PA" 0 (some 3))) 7 ≠ some 3
    := by
  refine ⟨?_, ?_, ?_, ?_⟩ <;> simp [cases_7_day_avg, sampleWeek]

/-- C8 witness: the theorem applied to the 8-element series 1..7 plus one
provisional observation, at step 0 and constant 5. -/
theorem C8_witness :
    8 + 0 ≤ (sampleWeek ++ [mkRec "PA" 7 (some 100)]).length ∧
    cases_7_day_avg (sampleWeek ++ [mkRec "PA" 7 (some 100)]) 0 = some 4 :=
  ⟨by simp [sampleWeek],
    (C8_window_avg (sampleWeek ++ [mkRec "PA" 7 (some 100)]) 0 5
      (by simp [sampleWeek])).2.1⟩

/-! ## C1 -/

/-- C1 (code behaviour): the step-window aggregation performs NO length
check and raises no InsufficientHistory-style failure.  On a series with
fewer than 22 observations the `[0, 7, 14]` loop of `reportcovid` reaches
an unchecked index computation and the Rust code panics (usize underflow /
out-of-range slice), modelled here as `none`; likewise the `[0, 1]` loop of
`printstats` on fewer than 9 observations.  The claim that the failure is a
typed error raised before indexing is contradicted by the code. -/
theorem C1_short_series_panics (recs : List HospitalRecord) :
    (recs.length < 22 → reportcovid_steps recs = none) ∧
    (recs.length < 9 → highest_recent_avg recs = none) := by
  constructor
  · intro h
    have h14 : cases_7_day_avg recs 14 = none := by
      unfold cases_7_day_avg
      rw [if_pos (by omega)]
    cases h0 : cases_7_day_avg recs 0 <;> cases h7 : cases_7_day_avg recs 7 <;>
      simp [reportcovid_steps, h0, h7, h14]
  · intro h
    unfold highest_recent_avg
    rw [if_pos h]

/-- C1 witness: the 8-observation series of the specification scenario (the
sequence 1..7 plus one further day) is shorter than 22; the step-window
aggregation reaches the panicking index computation (`none`), instead of
raising a typed InsufficientHistory failure. -/
theorem C1_witness :
    ((sampleWeek ++ [mkRec "PA" 7 (some 100)]).length < 22 ∧
      (sampleWeek ++ [mkRec "PA" 7 (some 100)]).length < 9) ∧
    reportcovid_steps (sampleWeek ++ [mkRec "PA" 7 (some 100)]) = none ∧
    highest_recent_avg (sampleWeek ++ [mkRec "PA" 7 (some 100)]) = none :=
  ⟨⟨by simp [sampleWeek], by simp [sampleWeek]⟩,
    (C1_short_series_panics (sampleWeek ++ [mkRec "PA" 7 (some 100)])).1
      (by simp [sampleWeek]),
    (C1_short_series_panics (sampleWeek ++ [mkRec "PA" 7 (some 100)])).2
      (by simp [sampleWeek])⟩

/-! ## C2 -/

/-- A 15-day series: seven days of 7 cases, then eight days of 0 cases.  Its
step-7 window average is 7, while its step-0 and step-1 averages are 0 and
1 respectively. -/
def exC2 : List HospitalRecord :=
  [mkRec "PA" 0 (some 7), mkRec "PA" 1 (some 7), mkRec "PA" 2 (some 7),
   mkRec "PA" 3 (some 7), mkRec "PA" 4 (some 7), mkRec "PA" 5 (some 7),
   mkRec "PA" 6 (some 7), mkRec "PA" 7 (some 0), mkRec "PA" 8 (some 0),
   mkRec "PA" 9 (some 0), mkRec "PA" 10 (some 0), mkRec "PA" 11 (some 0),
   mkRec "PA" 12 (some 0), mkRec "PA" 13 (some 0), mkRec "PA" 14 (some 0)]

/-- C2 counterexample: the transmission-risk basis computed by `printstats`
is the maximum of the step-0 and step-1 averages, not of step-0 and step-7:
on `exC2` the code computes 1 while the max of step-0 and step-7 is 7. -/
theorem C2_counterexample :
    highest_recent_avg exC2 = some 1 ∧
    highest_recent_avg_spec exC2 = some 7 ∧
    highest_recent_avg exC2 ≠ highest_recent_avg_spec exC2 := by
  refine ⟨?_, ?_, ?_⟩
  · norm_num [highest_recent_avg, exC2, mkRec]
  · norm_num [highest_recent_avg_spec, cases_7_day_avg, exC2, mkRec]
    decide
  · norm_num [highest_recent_avg, highest_recent_avg_spec, cases_7_day_avg,
      exC2, mkRec]
    decide

/-- C2 (amended): the "highest recent 7-day average" used as the basis for
transmission-risk classification equals the maximum of the step-0 and
step-1 trailing 7-day averages (each truncated to an integer before the
max is taken). -/
theorem C2_highest_is_step01 (recs : List HospitalRecord)
    (h : 9 ≤ recs.length) :
    ∃ a0 a1 : ℚ, cases_7_day_avg recs 0 = some a0 ∧
      cases_7_day_avg recs 1 = some a1 ∧
      highest_recent_avg recs = some (max (⌊a0⌋.toNat) (⌊a1⌋.toNat)) := by
  refine ⟨(((recs.drop (recs.length - 1 - 7 - 0)).take 7).map
      (fun r => (r.new_cases.getD 0 : ℚ))).sum / 7,
    (((recs.drop (recs.length - 1 - 7 - 1)).take 7).map
      (fun r => (r.new_cases.getD 0 : ℚ))).sum / 7, ?_, ?_, ?_⟩
  · unfold cases_7_day_avg
    rw [if_neg (by omega)]
  · unfold cases_7_day_avg
    rw [if_neg (by omega)]
  · unfold highest_recent_avg
    rw [if_neg (by omega)]

/-- C2 witness: the amended theorem applied to the concrete series `exC2`. -/
theorem C2_witness :
    9 ≤ exC2.length ∧
    ∃ a0 a1 : ℚ, cases_7_day_avg exC2 0 = some a0 ∧
      cases_7_day_avg exC2 1 = some a1 ∧
      highest_recent_avg exC2 = some (max (⌊a0⌋.toNat) (⌊a1⌋.toNat)) :=
  ⟨by simp [exC2], C2_highest_is_step01 exC2 (by simp [exC2])⟩

/-! ## C9 -/

theorem day_delta_eq (vals : List (Option Nat)) (h : 2 ≤ vals.length) :
    day_delta vals =
      match vals.getD (vals.length - 1) none with
      | none => none
      | some newest =>
        match vals.getD (vals.length - 2) none with
        | some prev => some ((newest : Int) - (prev : Int))
        | none =>
          if vals.length < 3 then none
          else
            match vals.getD (vals.length - 3) none with
            | none => none
            | some prev => some ((newest : Int) - (prev : Int)) := by
  have e1 : vals.length - 1 - 1 = vals.length - 2 := by omega
  have e2 : vals.length - 1 - 2 = vals.length - 3 := by omega
  simp only [day_delta, e1, e2]
  rw [if_neg (by omega)]

/-- C9: the hospitalization and ICU day-over-day delta is the signed
difference between the latest value and the prior value; when the prior
value is missing, the value two days back is used instead, and that
fallback is a single step (the match inspects no earlier position). -/
theorem C9_day_delta (vals : List (Option Nat)) (a : Nat)
    (h2 : 2 ≤ vals.length)
    (hlast : vals.getD (vals.length - 1) none = some a) :
    (∀ b, vals.getD (vals.length - 2) none = some b →
      day_delta vals = some ((a : Int) - (b : Int))) ∧
    (vals.getD (vals.length - 2) none = none → 3 ≤ vals.length →
      ∀ c, vals.getD (vals.length - 3) none = some c →
        day_delta vals = some ((a : Int) - (c : Int))) ∧
    (∀ recs : List HospitalRecord,
      hosp_delta recs =
        day_delta (recs.map (fun r => r.covid_hospitalized)) ∧
      icu_delta recs = day_delta (recs.map (fun r => r.covid_icu))) := by
  refine ⟨?_, ?_, fun recs => ⟨rfl, rfl⟩⟩
  · intro b hb
    rw [day_delta_eq vals h2]
    simp only [hlast, hb]
  · intro hmiss h3 c hc
    rw [day_delta_eq vals h2]
    simp only [hlast, hmiss, hc]
    rw [if_neg (by omega)]

/-- C9 witness: for the series `[some 1, none, some 5]` the prior value is
missing, so the delta falls back to the value two days back: 5 - 1. -/
theorem C9_witness :
    day_delta [some 1, none, some 5] = some ((5 : Int) - (1 : Int)) :=
  (C9_day_delta [some 1, none, some 5] 5 (by decide) (by decide)).2.1
    (by decide) (by decide) 1 (by decide)

/-! ## C7 -/

theorem casehash_eq_getLast (cs : List CasesRecord) (k : String × Nat) :
    casehash cs k =
      (cs.filter (fun c => decide ((c.county, c.date) = k))).getLast? := by
  induction cs using List.reverseRecOn with
  | nil => rfl
  | append_singleton cs c ih =>
    have hfold : casehash (cs ++ [c]) k =
        if k = (c.county, c.date) then some c else casehash cs k := by
      simp [casehash, List.foldl_append]
    rw [hfold, List.filter_append]
    by_cases hk : k = (c.county, c.date)
    · rw [if_pos hk]
      have hone : List.filter
          (fun c' => decide ((c'.county, c'.date) = k)) [c] = [c] := by
        simp [hk]
      rw [hone, List.getLast?_concat]
    · rw [if_neg hk]
      have hnone : List.filter
          (fun c' => decide ((c'.county, c'.date) = k)) [c] = [] := by
        have hcf : ((c.county, c.date) = k) = False :=
          eq_false fun h : (c.county, c.date) = k => hk h.symm
        simp [hcf]
      rw [hnone, List.append_nil, ih]

/-- C7: the join produces one merged observation per capacity row,
preserving its key; when case rows share the row's (jurisdiction, date)
key, the merged new-case count is the LAST such case row's count; when no
case row matches, it is absent. -/
theorem C7_join (case_records : List CasesRecord)
    (hosp_records : List HospitalRecord)
    (hfresh : ∀ r ∈ hosp_records, r.new_cases = none) :
    ((get_all_records case_records hosp_records).length =
      hosp_records.length) ∧
    (∀ (i : Nat) (r : HospitalRecord), hosp_records[i]? = some r →
      ∃ r' : HospitalRecord,
        (get_all_records case_records hosp_records)[i]? = some r' ∧
        r'.county = r.county ∧ r'.date = r.date ∧
        r'.new_cases = ((case_records.filter (fun c =>
          decide ((c.county, c.date) = (r.county, r.date)))).getLast?).bind
            (fun c => c.new_cases)) := by
  refine ⟨by simp [get_all_records], ?_⟩
  intro i r hi
  have hr : r ∈ hosp_records := List.getElem?_mem hi
  cases hch : casehash case_records (r.county, r.date) with
  | none =>
    refine ⟨r, ?_, rfl, rfl, ?_⟩
    · simp [get_all_records, List.getElem?_map, hi, hch]
    · rw [← casehash_eq_getLast, hch, Option.none_bind, hfresh r hr]
  | some c =>
    refine ⟨{ r with new_cases := c.new_cases }, ?_, rfl, rfl, ?_⟩
    · simp [get_all_records, List.getElem?_map, hi, hch]
    · rw [← casehash_eq_getLast, hch, Option.some_bind]

/-- C7 witness: two case rows with the same key ("A", day 1) and counts 10
then 20, joined against capacity rows for ("A", day 1) and ("B", day 2):
per the theorem, row 0 receives the LAST matching count and row 1 stays
absent. -/
theorem C7_witness :
    (∀ r ∈ [mkRec "A" 1 none, mkRec "B" 2 none], r.new_cases = none) ∧
    (((get_all_records
        [⟨"A", 1, some 10⟩, ⟨"A", 1, some 20⟩]
        [mkRec "A" 1 none, mkRec "B" 2 none]).length =
      ([mkRec "A" 1 none, mkRec "B" 2 none] : List HospitalRecord).length) ∧
    (∀ (i : Nat) (r : HospitalRecord), ([mkRec "A" 1 none, mkRec "B" 2 none] :
        List HospitalRecord)[i]? = some r →
      ∃ r' : HospitalRecord, (get_all_records
          [⟨"A", 1, some 10⟩, ⟨"A", 1, some 20⟩]
          [mkRec "A" 1 none, mkRec "B" 2 none])[i]? = some r' ∧
        r'.county = r.county ∧ r'.date = r.date ∧
        r'.new_cases = ((([⟨"A", 1, some 10⟩, ⟨"A", 1, some 20⟩] :
          List CasesRecord).filter (fun c =>
          decide ((c.county, c.date) = (r.county, r.date)))).getLast?).bind
            (fun c => c.new_cases))) :=
  ⟨by decide,
    C7_join [⟨"A", 1, some 10⟩, ⟨"A", 1, some 20⟩]
      [mkRec "A" 1 none, mkRec "B" 2 none] (by decide)⟩

/-! ## C5 -/

/-- C5 (code behaviour at the failing input): the weekday decomposer does
NOT guard zero-total chunks.  On a 113-observation window whose case counts
are all zero, every 7-day chunk total is zero and each contribution is the
unguarded IEEE division `0.0 / (0.0 * 16.0)` = 0.0/0.0 (NaN), modelled here
as `none`.  The claim that no division by zero ever occurs is contradicted
by the code. -/
theorem C5_zero_chunk_unguarded :
    dayreport_dayper (List.replicate 113 (mkRec "Pennsylvania" 0 (some 0)))
      = none := by
  decide

/-! ## C10 -/

/-- The projection of an observation that every case aggregation in the
program reads: its date and its new-case count with absent read as 0. -/
def proj (r : HospitalRecord) : Nat × Nat := (r.date, r.new_cases.getD 0)

/-- `casevec` on projected pairs. -/
def casevecP (ps : List (Nat × Nat)) : List Nat :=
  (ps.take (ps.length - 1)).map Prod.snd

/-- `cases_7_day_avg` on projected pairs. -/
def avgP (ps : List (Nat × Nat)) (step : Nat) : Option ℚ :=
  if ps.length < 8 + step then none
  else some ((((ps.drop (ps.length - 1 - 7 - step)).take 7).map
    (fun p => (p.2 : ℚ))).sum / 7)

/-- `dayreport_dayper` on projected pairs. -/
def dayperP (ps : List (Nat × Nat)) : Option (List ℚ) :=
  if ps.length < 113 then none
  else
    let window := (ps.drop (ps.length - 113)).take 112
    let chunks := chunks7 window
    if chunks.any (fun c => (c.map Prod.snd).sum = 0) then none
    else some (chunks.foldl (fun dayper c =>
      let tot : ℚ := (c.map (fun p => (p.2 : ℚ))).sum
      c.foldl (fun dp w =>
        dp.set (w.1 % 7) (dp.getD (w.1 % 7) 0 + (w.2 : ℚ) / (tot * 16)))
        dayper)
      (List.replicate 7 0))

theorem casevec_eq_casevecP (recs : List HospitalRecord) :
    casevec recs = casevecP (recs.map proj) := by
  simp [casevec, casevecP, proj, ← List.map_take, List.map_map, Function.comp]

theorem daily_series_eq_proj (recs : List HospitalRecord) :
    daily_series recs =
      (recs.map proj).take ((recs.map proj).length - 1) := by
  simp [daily_series, proj, ← List.map_take]

theorem avg_eq_avgP (recs : List HospitalRecord) (step : Nat) :
    cases_7_day_avg recs step = avgP (recs.map proj) step := by
  simp only [cases_7_day_avg, avgP, List.length_map]
  by_cases h : recs.length < 8 + step
  · rw [if_pos h, if_pos h]
  · rw [if_neg h, if_neg h]
    rw [← List.map_drop, ← List.map_take, List.map_map]
    rfl

theorem chunksAux_map {α β : Type} (f : α → β) :
    ∀ (n : Nat) (l : List α),
      chunksAux n (l.map f) = (chunksAux n l).map (List.map f)
  | 0, _ => rfl
  | _ + 1, [] => rfl
  | n + 1, x :: xs => by
    show chunksAux (n + 1) ((x :: xs).map f) = _
    rw [List.map_cons]
    show ((f x :: xs.map f).take 7) :: chunksAux n ((f x :: xs.map f).drop 7)
      = ((x :: xs).take 7).map f :: (chunksAux n ((x :: xs).drop 7)).map
          (List.map f)
    rw [← List.map_cons, ← List.map_take, ← List.map_drop,
      chunksAux_map f n ((x :: xs).drop 7)]

theorem chunks7_map {α β : Type} (f : α → β) (l : List α) :
    chunks7 (l.map f) = (chunks7 l).map (List.map f) := by
  unfold chunks7
  rw [List.length_map, chunksAux_map]

theorem any_map_poly {α β : Type} (l : List α) (f : α → β) (p : β → Bool) :
    (l.map f).any p = l.any (fun a => p (f a)) := by
  induction l with
  | nil => rfl
  | cons x xs ih => simp [ih]

theorem dayper_eq_dayperP (recs : List HospitalRecord) :
    dayreport_dayper recs = dayperP (recs.map proj) := by
  simp only [dayreport_dayper, dayperP, List.length_map]
  by_cases h : recs.length < 113
  · rw [if_pos h, if_pos h]
  · rw [if_neg h, if_neg h]
    rw [← List.map_drop, ← List.map_take, chunks7_map, any_map_poly,
      List.foldl_map]
    have hpred : (fun c : List HospitalRecord =>
        decide (((c.map proj).map Prod.snd).sum = 0)) =
        (fun c : List HospitalRecord =>
          decide ((c.map (fun r => r.new_cases.getD 0)).sum = 0)) := by
      funext c
      rw [List.map_map]
      rfl
    rw [hpred]
    congr 1
    congr 1
    apply List.foldl_ext
    intro dp c hc
    rw [List.foldl_map]
    apply List.foldl_ext
    intro dp2 w hw
    simp only [proj, List.map_map]
    rfl

theorem set_self_of_getElem? {α : Type} :
    ∀ (l : List α) (i : Nat) (a : α), l[i]? = some a → l.set i a = l
  | [], _, _, h => by simp at h
  | x :: xs, 0, a, h => by
    simp only [List.getElem?_cons_zero, Option.some_inj] at h
    simp [h]
  | x :: xs, i + 1, a, h => by
    simp only [List.getElem?_cons_succ] at h
    simp [List.set, set_self_of_getElem? xs i a h]

theorem map_proj_set (recs : List HospitalRecord) (i : Nat)
    (r : HospitalRecord) (hi : recs[i]? = some r)
    (hmiss : r.new_cases = none) :
    (recs.set i { r with new_cases := some 0 }).map proj = recs.map proj := by
  rw [List.map_set]
  have hpr : proj { r with new_cases := some 0 } = proj r := by
    simp [proj, hmiss]
  rw [hpr]
  apply set_self_of_getElem?
  rw [List.getElem?_map, hi]
  rfl

theorem windows7_all_length (l : List Nat) :
    ∀ w ∈ windows7 l, w.length = 7 := by
  intro w hw
  simp only [windows7, List.mem_map, List.mem_range] at hw
  obtain ⟨i, hi, rfl⟩ := hw
  simp only [List.length_take, List.length_drop]
  omega

/-- C10: in every aggregation over new-case counts — the step-window 7-day
averages, the smoothed rolling-average trace, the daily-cases display
series, and the weekday-decomposer chunk totals and weights — an absent
count contributes exactly 0: replacing it by an explicit 0 changes no
aggregate, and the windows the rolling trace divides by always have length
7 (the divisor never shrinks). -/
theorem C10_absent_counts_as_zero (recs : List HospitalRecord) (i : Nat)
    (r : HospitalRecord) (hi : recs[i]? = some r)
    (hmiss : r.new_cases = none) :
    (casevec (recs.set i { r with new_cases := some 0 }) = casevec recs) ∧
    (daily_series (recs.set i { r with new_cases := some 0 }) =
      daily_series recs) ∧
    (cases7day (recs.set i { r with new_cases := some 0 }) =
      cases7day recs) ∧
    (∀ step, cases_7_day_avg (recs.set i { r with new_cases := some 0 })
      step = cases_7_day_avg recs step) ∧
    (dayreport_dayper (recs.set i { r with new_cases := some 0 }) =
      dayreport_dayper recs) ∧
    (∀ w ∈ windows7 (casevec recs), w.length = 7) := by
  have hm := map_proj_set recs i r hi hmiss
  have hcv : casevec (recs.set i { r with new_cases := some 0 })
      = casevec recs := by
    rw [casevec_eq_casevecP, casevec_eq_casevecP, hm]
  refine ⟨hcv, ?_, ?_, ?_, ?_, windows7_all_length _⟩
  · rw [daily_series_eq_proj, daily_series_eq_proj, hm]
  · unfold cases7day
    rw [hcv]
  · intro step
    rw [avg_eq_avgP, avg_eq_avgP, hm]
  · rw [dayper_eq_dayperP, dayper_eq_dayperP, hm]

/-- C10 witness: in a 3-observation series whose middle count is absent,
replacing that absent count by 0 leaves every aggregate unchanged. -/
theorem C10_witness :
    ([mkRec "PA" 0 (some 2), mkRec "PA" 1 none, mkRec "PA" 2 (some 4)] :
        List HospitalRecord)[1]? = some (mkRec "PA" 1 none) ∧
    casevec (([mkRec "PA" 0 (some 2), mkRec "PA" 1 none,
        mkRec "PA" 2 (some 4)] : List HospitalRecord).set 1
        { mkRec "PA" 1 none with new_cases := some 0 }) =
      casevec [mkRec "PA" 0 (some 2), mkRec "PA" 1 none,
        mkRec "PA" 2 (some 4)] :=
  ⟨by decide,
    (C10_absent_counts_as_zero
      [mkRec "PA" 0 (some 2), mkRec "PA" 1 none, mkRec "PA" 2 (some 4)]
      1 (mkRec "PA" 1 none) (by decide) (by decide)).1⟩

end Covidreport
